import Mathlib

/-!
Shallow embedding of `src/lambda/IoTCertificateValidator/handler.py`, the JITR
certificate-registration Lambda.  External AWS calls (IoT control plane, STS,
DynamoDB) are modelled by an oracle `Env`; each call issued by the handler is
recorded in a trace of `Action`s, and Python exceptions are modelled by
`Except String` carrying the exception message.
-/

namespace JITR

/-- Certificate status values passed to `update_certificate`. -/
inductive CertStatus where
  | active
  | revoked
deriving DecidableEq, Repr

/-- One statement of an IoT policy document (handler.py lines 133-147). -/
structure Stmt where
  effect : String
  action : List String
  resource : List String
deriving DecidableEq, Repr

/-- An IoT policy document (handler.py lines 130-149). -/
structure PolicyDoc where
  version : String
  statement : List Stmt
deriving DecidableEq, Repr

/-- External calls the handler can issue, with their arguments. -/
inductive Action where
  | describeCert (certificateId : String)
  | getItem (deviceId : String)
  | updateCert (certificateId : String) (newStatus : CertStatus)
  | stsGetCallerIdentity
  | getPolicy (policyName : String)
  | createPolicy (policyName : String) (doc : PolicyDoc)
  | attachPolicy (policyName : String) (target : String)
  | describeThing (thingName : String)
  | createThing (thingName : String) (attributes : List (String × String))
  | attachThingPrincipal (thingName : String) (principal : String)
deriving DecidableEq, Repr

/-- Outcome of `get_policy` / `describe_thing`: success, the
`ResourceNotFoundException` branch, or any other exception. -/
inductive GetOutcome where
  | found
  | notFound
  | err (msg : String)
deriving DecidableEq, Repr

/-- Oracle for the external services the handler calls.  Each field gives the
outcome of one kind of call; `.error msg` models the call raising an exception
whose `str` is `msg`.  `parseSubject` models `crypto.load_certificate` plus
`get_subject().get_components()`: the parsed subject as a component list.
`region` models `os.environ[AWS_REGION]` and `now` the `utcnow` timestamp. -/
structure Env where
  region : String
  now : String
  describeCert : String → Except String (String × String)
  parseSubject : String → Except String (List (String × String))
  getItem : String → Except String Bool
  updateCert : String → CertStatus → Except String Unit
  stsGetCallerIdentity : Except String String
  getPolicy : String → GetOutcome
  createPolicy : String → PolicyDoc → Except String Unit
  attachPolicy : String → String → Except String Unit
  describeThing : String → GetOutcome
  createThing : String → List (String × String) → Except String Unit
  attachThingPrincipal : String → String → Except String Unit

/-- The incoming Lambda event; `certificateId = none` models an event dict
without the `certificateId` key. -/
structure Event where
  certificateId : Option String

/-- The structured result the handler returns. -/
structure LambdaResult where
  statusCode : Nat
  body : String
deriving DecidableEq, Repr

/-- Python `dict(pairs)` lookup: the value of the last pair with the given
key, if any (later pairs override earlier ones). -/
def dictGet (pairs : List (String × String)) (key : String) : Option String :=
  pairs.foldl (fun acc p => if p.1 = key then some p.2 else acc) none

/-- The pure core of `extract_device_id_from_certificate` (handler.py lines
105-112): given the parsed subject components, prefer `serialNumber`, fall
back to `CN`, else raise `ValueError`. -/
def extract_device_id_core (components : List (String × String)) :
    Except String String :=
  match dictGet components "serialNumber" with
  | some v => .ok v
  | none =>
    match dictGet components "CN" with
    | some v => .ok v
    | none => .error "No device ID (serialNumber or CN) found in certificate subject"

/-- `extract_device_id_from_certificate` (handler.py lines 100-115): parse the
PEM (via the `Env` oracle) and extract the device id; any exception is
re-raised to the caller. -/
def extract_device_id_from_certificate (env : Env) (cert_pem : String) :
    Except String String :=
  match env.parseSubject cert_pem with
  | .error e => .error e
  | .ok components => extract_device_id_core components

/-- The policy document built in `create_and_attach_policy` (handler.py lines
130-149): three Allow statements, each scoped to the one device id. -/
def policy_document (region account_id device_id : String) : PolicyDoc :=
  { version := "2012-10-17"
    statement :=
      [ { effect := "Allow"
          action := ["iot:Connect"]
          resource := ["arn:aws:iot:" ++ region ++ ":" ++ account_id ++ ":client/" ++ device_id] }
      , { effect := "Allow"
          action := ["iot:Publish", "iot:Receive"]
          resource := ["arn:aws:iot:" ++ region ++ ":" ++ account_id ++ ":topic/devices/" ++ device_id ++ "/*"] }
      , { effect := "Allow"
          action := ["iot:Subscribe"]
          resource := ["arn:aws:iot:" ++ region ++ ":" ++ account_id ++ ":topicfilter/devices/" ++ device_id ++ "/*"] } ] }

/-- `create_and_attach_policy` (handler.py lines 117-163): fetch account id
from STS, probe the policy with `get_policy`, create it on
`ResourceNotFoundException`, then attach it to the certificate.  Returns the
calls issued and either success or the first exception raised. -/
def create_and_attach_policy (env : Env)
    (policy_name certificate_arn device_id : String) :
    List Action × Except String Unit :=
  match env.stsGetCallerIdentity with
  | .error e => ([Action.stsGetCallerIdentity], .error e)
  | .ok account_id =>
    match env.getPolicy policy_name with
    | .found =>
      match env.attachPolicy policy_name certificate_arn with
      | .ok _ =>
        ([Action.stsGetCallerIdentity, Action.getPolicy policy_name,
          Action.attachPolicy policy_name certificate_arn], .ok ())
      | .error e =>
        ([Action.stsGetCallerIdentity, Action.getPolicy policy_name,
          Action.attachPolicy policy_name certificate_arn], .error e)
    | .notFound =>
      match env.createPolicy policy_name (policy_document env.region account_id device_id) with
      | .error e =>
        ([Action.stsGetCallerIdentity, Action.getPolicy policy_name,
          Action.createPolicy policy_name (policy_document env.region account_id device_id)],
         .error e)
      | .ok _ =>
        match env.attachPolicy policy_name certificate_arn with
        | .ok _ =>
          ([Action.stsGetCallerIdentity, Action.getPolicy policy_name,
            Action.createPolicy policy_name (policy_document env.region account_id device_id),
            Action.attachPolicy policy_name certificate_arn], .ok ())
        | .error e =>
          ([Action.stsGetCallerIdentity, Action.getPolicy policy_name,
            Action.createPolicy policy_name (policy_document env.region account_id device_id),
            Action.attachPolicy policy_name certificate_arn], .error e)
    | .err e =>
      ([Action.stsGetCallerIdentity, Action.getPolicy policy_name], .error e)

/-- The `attributePayload` attributes passed to `create_thing`
(handler.py lines 175-180). -/
def thingAttributes (env : Env) : List (String × String) :=
  [("source", "jitr_registration"), ("registration_date", env.now)]

/-- `register_thing` (handler.py lines 165-190): probe the thing with
`describe_thing`, create it on `ResourceNotFoundException`, then attach the
certificate as its principal. -/
def register_thing (env : Env) (thing_name certificate_arn : String) :
    List Action × Except String Unit :=
  match env.describeThing thing_name with
  | .found =>
    match env.attachThingPrincipal thing_name certificate_arn with
    | .ok _ =>
      ([Action.describeThing thing_name,
        Action.attachThingPrincipal thing_name certificate_arn], .ok ())
    | .error e =>
      ([Action.describeThing thing_name,
        Action.attachThingPrincipal thing_name certificate_arn], .error e)
  | .notFound =>
    match env.createThing thing_name (thingAttributes env) with
    | .error e =>
      ([Action.describeThing thing_name,
        Action.createThing thing_name (thingAttributes env)], .error e)
    | .ok _ =>
      match env.attachThingPrincipal thing_name certificate_arn with
      | .ok _ =>
        ([Action.describeThing thing_name,
          Action.createThing thing_name (thingAttributes env),
          Action.attachThingPrincipal thing_name certificate_arn], .ok ())
      | .error e =>
        ([Action.describeThing thing_name,
          Action.createThing thing_name (thingAttributes env),
          Action.attachThingPrincipal thing_name certificate_arn], .error e)
  | .err e => ([Action.describeThing thing_name], .error e)

/-- The body of the `try` block of `lambda_handler` (handler.py lines 29-81):
describe the certificate, extract the device id, look the device up in the
whitelist table, then either activate + provision (authorized) or revoke
(denied).  `.error e` models an exception reaching the handler `except`. -/
def lambda_handler_try (env : Env) (certificate_id : String) :
    List Action × Except String LambdaResult :=
  match env.describeCert certificate_id with
  | .error e => ([Action.describeCert certificate_id], .error e)
  | .ok (certificate_pem, certificate_arn) =>
    match extract_device_id_from_certificate env certificate_pem with
    | .error e => ([Action.describeCert certificate_id], .error e)
    | .ok device_id =>
      match env.getItem device_id with
      | .error e =>
        ([Action.describeCert certificate_id, Action.getItem device_id], .error e)
      | .ok itemPresent =>
        match itemPresent with
        | true =>
          match env.updateCert certificate_id CertStatus.active with
          | .error e =>
            ([Action.describeCert certificate_id, Action.getItem device_id,
              Action.updateCert certificate_id CertStatus.active], .error e)
          | .ok _ =>
            match create_and_attach_policy env ("DevicePolicy_" ++ device_id)
                certificate_arn device_id with
            | (ptr, .error e) =>
              ([Action.describeCert certificate_id, Action.getItem device_id,
                Action.updateCert certificate_id CertStatus.active] ++ ptr, .error e)
            | (ptr, .ok _) =>
              match register_thing env ("Device_" ++ device_id) certificate_arn with
              | (ttr, .error e) =>
                ([Action.describeCert certificate_id, Action.getItem device_id,
                  Action.updateCert certificate_id CertStatus.active] ++ ptr ++ ttr,
                 .error e)
              | (ttr, .ok _) =>
                ([Action.describeCert certificate_id, Action.getItem device_id,
                  Action.updateCert certificate_id CertStatus.active] ++ ptr ++ ttr,
                 .ok ⟨200, "Device " ++ device_id ++ " successfully registered"⟩)
        | false =>
          match env.updateCert certificate_id CertStatus.revoked with
          | .error e =>
            ([Action.describeCert certificate_id, Action.getItem device_id,
              Action.updateCert certificate_id CertStatus.revoked], .error e)
          | .ok _ =>
            ([Action.describeCert certificate_id, Action.getItem device_id,
              Action.updateCert certificate_id CertStatus.revoked],
             .ok ⟨403, "Device " ++ device_id ++ " is not authorized"⟩)

/-- `lambda_handler` (handler.py lines 19-98).  `event[certificateId]` is read
before the `try`, so a missing key is an uncaught `KeyError` (modelled as the
outer `.error`).  Any exception from the try body triggers a best-effort
revocation and a 500 result carrying the original exception's message. -/
def lambda_handler (env : Env) (event : Event) :
    List Action × Except String LambdaResult :=
  match event.certificateId with
  | none => ([], .error "KeyError: certificateId")
  | some certificate_id =>
    match lambda_handler_try env certificate_id with
    | (tr, .ok r) => (tr, .ok r)
    | (tr, .error e) =>
      match env.updateCert certificate_id CertStatus.revoked with
      | .ok _ =>
        (tr ++ [Action.updateCert certificate_id CertStatus.revoked],
         .ok ⟨500, "Error: " ++ e⟩)
      | .error _rev_err =>
        (tr ++ [Action.updateCert certificate_id CertStatus.revoked],
         .ok ⟨500, "Error: " ++ e⟩)

/-- An environment in which every call succeeds, device `dev-7` is
whitelisted, and neither the policy nor the thing exists yet. -/
def happyEnv : Env :=
  { region := "ap-northeast-1"
    now := "2025-01-01T00:00:00Z"
    describeCert := fun _ => .ok ("PEM7", "arn:cert7")
    parseSubject := fun _ => .ok [("serialNumber", "dev-7")]
    getItem := fun _ => .ok true
    updateCert := fun _ _ => .ok ()
    stsGetCallerIdentity := .ok "123456789012"
    getPolicy := fun _ => .notFound
    createPolicy := fun _ _ => .ok ()
    attachPolicy := fun _ _ => .ok ()
    describeThing := fun _ => .notFound
    createThing := fun _ _ => .ok ()
    attachThingPrincipal := fun _ _ => .ok () }

/-- Environment for the deny path: every call succeeds, the certificate's
subject names device `dev-42`, and the whitelist lookup finds no item. -/
def denyEnv : Env :=
  { happyEnv with
    parseSubject := fun _ => .ok [("CN", "dev-42")]
    getItem := fun _ => .ok false }

/-- Environment in which `describe_certificate` raises and every
`update_certificate` call (including the best-effort revocation) raises. -/
def failEnv : Env :=
  { happyEnv with
    describeCert := fun _ => .error "describe boom"
    updateCert := fun _ _ => .error "revoke boom" }

/-- Environment for the deny path in which the revocation call raises. -/
def denyRevokeFailEnv : Env :=
  { denyEnv with updateCert := fun _ _ => .error "revoke boom" }

/-- Environment whose certificate subject carries both a serialNumber and a
CN component. -/
def precedenceEnv : Env :=
  { happyEnv with
    parseSubject := fun _ => .ok [("serialNumber", "SN1"), ("CN", "CN1")] }

/-- C5: for every parsed certificate subject, extraction returns the
serialNumber component's value when present (the CN value is ignored);
otherwise the CN component's value when present; otherwise it fails with the
identity-not-found error. -/
theorem extract_device_id_precedence (env : Env) (pem : String)
    (comps : List (String × String))
    (hparse : env.parseSubject pem = .ok comps) :
    (∀ sn, dictGet comps "serialNumber" = some sn →
        extract_device_id_from_certificate env pem = .ok sn) ∧
    (dictGet comps "serialNumber" = none →
      ∀ cn, dictGet comps "CN" = some cn →
        extract_device_id_from_certificate env pem = .ok cn) ∧
    (dictGet comps "serialNumber" = none → dictGet comps "CN" = none →
        extract_device_id_from_certificate env pem =
          .error "No device ID (serialNumber or CN) found in certificate subject") := by
  refine ⟨?_, ?_, ?_⟩ <;> intros <;>
    simp [extract_device_id_from_certificate, extract_device_id_core, hparse, *]

/-- Witness for C5 at a subject carrying both serialNumber and CN: the
serialNumber value is returned. -/
theorem extract_device_id_precedence_witness :
    extract_device_id_from_certificate precedenceEnv "PEM" = .ok "SN1" :=
  (extract_device_id_precedence precedenceEnv "PEM"
    [("serialNumber", "SN1"), ("CN", "CN1")] rfl).1 "SN1" rfl

/-- C7: for every device id, the generated policy document's three statements
carry exactly the device-scoped resources client/(deviceId),
topic/devices/(deviceId)/*, and topicfilter/devices/(deviceId)/* — the device
id is the sole topic-namespace discriminator. -/
theorem policy_resources_scoped (region account_id device_id : String) :
    (policy_document region account_id device_id).statement.map Stmt.resource =
      [["arn:aws:iot:" ++ region ++ ":" ++ account_id ++ ":client/" ++ device_id],
       ["arn:aws:iot:" ++ region ++ ":" ++ account_id ++ ":topic/devices/" ++ device_id ++ "/*"],
       ["arn:aws:iot:" ++ region ++ ":" ++ account_id ++ ":topicfilter/devices/" ++ device_id ++ "/*"]] :=
  rfl

/-- C8: an event without a certificateId key makes no external call at all
and surfaces an immediate precondition failure (the uncaught KeyError raised
before the try block). -/
theorem missing_certificate_id_no_calls (env : Env) (event : Event)
    (h : event.certificateId = none) :
    lambda_handler env event = ([], .error "KeyError: certificateId") := by
  simp [lambda_handler, h]

/-- Witness for C8 at the empty event. -/
theorem missing_certificate_id_no_calls_witness :
    lambda_handler happyEnv ⟨none⟩ = ([], .error "KeyError: certificateId") :=
  missing_certificate_id_no_calls happyEnv ⟨none⟩ rfl

/-- C2: whenever the try body raises (after the certificate id is known), the
handler issues a revocation call and returns 500 with the original
exception's message — whatever the outcome of the revocation attempt, the
result is the same and never carries the revocation error's message. -/
theorem original_error_preserved (env : Env) (event : Event)
    (cid : String) (tr : List Action) (e : String)
    (hid : event.certificateId = some cid)
    (htry : lambda_handler_try env cid = (tr, .error e)) :
    lambda_handler env event =
      (tr ++ [Action.updateCert cid CertStatus.revoked],
       .ok ⟨500, "Error: " ++ e⟩) := by
  simp only [lambda_handler, hid, htry]
  split <;> rfl

/-- Witness for C2: describe fails and the revocation itself fails, yet the
result carries the describe error's message. -/
theorem original_error_preserved_witness :
    lambda_handler failEnv ⟨some "cert-9"⟩ =
      ([Action.describeCert "cert-9", Action.updateCert "cert-9" CertStatus.revoked],
       .ok ⟨500, "Error: " ++ "describe boom"⟩) :=
  original_error_preserved failEnv ⟨some "cert-9"⟩ "cert-9"
    [Action.describeCert "cert-9"] "describe boom" rfl rfl

/-- C3: a device id absent from the whitelist (no Item in the lookup
response) gets its certificate revoked and the handler returns 403 with body
"Device (deviceId) is not authorized". -/
theorem deny_path_revokes_and_returns_403 (env : Env) (event : Event)
    (cid pem arn did : String)
    (hid : event.certificateId = some cid)
    (hdesc : env.describeCert cid = .ok (pem, arn))
    (hext : extract_device_id_from_certificate env pem = .ok did)
    (hitem : env.getItem did = .ok false)
    (hrev : env.updateCert cid CertStatus.revoked = .ok ()) :
    lambda_handler env event =
      ([Action.describeCert cid, Action.getItem did,
        Action.updateCert cid CertStatus.revoked],
       .ok ⟨403, "Device " ++ did ++ " is not authorized"⟩) := by
  simp [lambda_handler, lambda_handler_try, hid, hdesc, hext, hitem, hrev]

/-- Witness for C3 at device id dev-42. -/
theorem deny_path_revokes_and_returns_403_witness :
    lambda_handler denyEnv ⟨some "cert-2"⟩ =
      ([Action.describeCert "cert-2", Action.getItem "dev-42",
        Action.updateCert "cert-2" CertStatus.revoked],
       .ok ⟨403, "Device dev-42 is not authorized"⟩) :=
  deny_path_revokes_and_returns_403 denyEnv ⟨some "cert-2"⟩
    "cert-2" "PEM7" "arn:cert7" "dev-42" rfl rfl rfl rfl rfl

/-- C10: when the deny-path revocation call itself raises, the exception is
routed through the generic error handler, which attempts revocation a second
time and returns 500 carrying the revocation error's message instead of the
403 denial result. -/
theorem deny_revocation_failure_500 (env : Env) (event : Event)
    (cid pem arn did r : String)
    (hid : event.certificateId = some cid)
    (hdesc : env.describeCert cid = .ok (pem, arn))
    (hext : extract_device_id_from_certificate env pem = .ok did)
    (hitem : env.getItem did = .ok false)
    (hrev : env.updateCert cid CertStatus.revoked = .error r) :
    lambda_handler env event =
      ([Action.describeCert cid, Action.getItem did,
        Action.updateCert cid CertStatus.revoked,
        Action.updateCert cid CertStatus.revoked],
       .ok ⟨500, "Error: " ++ r⟩) := by
  simp [lambda_handler, lambda_handler_try, hid, hdesc, hext, hitem, hrev]

/-- Witness for C10. -/
theorem deny_revocation_failure_500_witness :
    lambda_handler denyRevokeFailEnv ⟨some "cert-2"⟩ =
      ([Action.describeCert "cert-2", Action.getItem "dev-42",
        Action.updateCert "cert-2" CertStatus.revoked,
        Action.updateCert "cert-2" CertStatus.revoked],
       .ok ⟨500, "Error: " ++ "revoke boom"⟩) :=
  deny_revocation_failure_500 denyRevokeFailEnv ⟨some "cert-2"⟩
    "cert-2" "PEM7" "arn:cert7" "dev-42" "revoke boom" rfl rfl rfl rfl rfl

/-- C4: an authorized device with no prior policy or thing gets the policy
DevicePolicy_(deviceId) created with exactly three statements whose resources
are scoped to that device id, the thing Device_(deviceId) created, the
certificate attached to both and activated, and the handler returns 200 with
body "Device (deviceId) successfully registered". -/
theorem allow_path_first_time (env : Env) (event : Event)
    (cid pem arn did account : String)
    (hid : event.certificateId = some cid)
    (hdesc : env.describeCert cid = .ok (pem, arn))
    (hext : extract_device_id_from_certificate env pem = .ok did)
    (hitem : env.getItem did = .ok true)
    (hact : env.updateCert cid CertStatus.active = .ok ())
    (hsts : env.stsGetCallerIdentity = .ok account)
    (hgp : env.getPolicy ("DevicePolicy_" ++ did) = .notFound)
    (hcp : env.createPolicy ("DevicePolicy_" ++ did)
            (policy_document env.region account did) = .ok ())
    (hap : env.attachPolicy ("DevicePolicy_" ++ did) arn = .ok ())
    (hdt : env.describeThing ("Device_" ++ did) = .notFound)
    (hct : env.createThing ("Device_" ++ did) (thingAttributes env) = .ok ())
    (hatp : env.attachThingPrincipal ("Device_" ++ did) arn = .ok ()) :
    lambda_handler env event =
      ([Action.describeCert cid, Action.getItem did,
        Action.updateCert cid CertStatus.active,
        Action.stsGetCallerIdentity, Action.getPolicy ("DevicePolicy_" ++ did),
        Action.createPolicy ("DevicePolicy_" ++ did)
          (policy_document env.region account did),
        Action.attachPolicy ("DevicePolicy_" ++ did) arn,
        Action.describeThing ("Device_" ++ did),
        Action.createThing ("Device_" ++ did) (thingAttributes env),
        Action.attachThingPrincipal ("Device_" ++ did) arn],
       .ok ⟨200, "Device " ++ did ++ " successfully registered"⟩) ∧
    (policy_document env.region account did).statement.length = 3 ∧
    (policy_document env.region account did).statement.map Stmt.resource =
      [["arn:aws:iot:" ++ env.region ++ ":" ++ account ++ ":client/" ++ did],
       ["arn:aws:iot:" ++ env.region ++ ":" ++ account ++ ":topic/devices/" ++ did ++ "/*"],
       ["arn:aws:iot:" ++ env.region ++ ":" ++ account ++ ":topicfilter/devices/" ++ did ++ "/*"]] := by
  refine ⟨?_, rfl, rfl⟩
  simp [lambda_handler, lambda_handler_try, create_and_attach_policy,
    register_thing, hid, hdesc, hext, hitem, hact, hsts, hgp, hcp, hap,
    hdt, hct, hatp]

/-- Witness for C4 at device dev-7 in the all-fresh environment. -/
theorem allow_path_first_time_witness :
    lambda_handler happyEnv ⟨some "cert-1"⟩ =
      ([Action.describeCert "cert-1", Action.getItem "dev-7",
        Action.updateCert "cert-1" CertStatus.active,
        Action.stsGetCallerIdentity, Action.getPolicy "DevicePolicy_dev-7",
        Action.createPolicy "DevicePolicy_dev-7"
          (policy_document "ap-northeast-1" "123456789012" "dev-7"),
        Action.attachPolicy "DevicePolicy_dev-7" "arn:cert7",
        Action.describeThing "Device_dev-7",
        Action.createThing "Device_dev-7" (thingAttributes happyEnv),
        Action.attachThingPrincipal "Device_dev-7" "arn:cert7"],
       .ok ⟨200, "Device dev-7 successfully registered"⟩) :=
  (allow_path_first_time happyEnv ⟨some "cert-1"⟩ "cert-1" "PEM7" "arn:cert7"
    "dev-7" "123456789012" rfl rfl rfl rfl rfl rfl rfl rfl rfl rfl rfl rfl).1

/-- Every successful result of the try body carries status 200 or 403. -/
theorem lambda_handler_try_ok_code (env : Env) (cid : String)
    (tr : List Action) (r : LambdaResult)
    (h : lambda_handler_try env cid = (tr, .ok r)) :
    r.statusCode = 200 ∨ r.statusCode = 403 := by
  unfold lambda_handler_try at h
  repeat' split at h
  all_goals simp_all
  all_goals obtain ⟨htr, hr⟩ := h
  all_goals subst hr
  all_goals simp

/-- C9: every event carrying a certificateId yields exactly one structured
result, with status 200, 403 or 500 — no exception escapes the try body
uncaught. -/
theorem handler_total_outcomes (env : Env) (event : Event) (cid : String)
    (h : event.certificateId = some cid) :
    ∃ r, (lambda_handler env event).2 = .ok r ∧
      (r.statusCode = 200 ∨ r.statusCode = 403 ∨ r.statusCode = 500) := by
  rcases htry : lambda_handler_try env cid with ⟨tr, res⟩
  cases res with
  | ok r =>
    refine ⟨r, ?_, ?_⟩
    · simp [lambda_handler, h, htry]
    · rcases lambda_handler_try_ok_code env cid tr r htry with h2 | h2
      · exact Or.inl h2
      · exact Or.inr (Or.inl h2)
  | error e =>
    refine ⟨⟨500, "Error: " ++ e⟩, ?_, Or.inr (Or.inr rfl)⟩
    simp only [lambda_handler, h, htry]
    split <;> rfl

/-- Witness for C9 at the all-succeeding environment. -/
theorem handler_total_outcomes_witness :
    ∃ r, (lambda_handler happyEnv ⟨some "cert-1"⟩).2 = .ok r ∧
      (r.statusCode = 200 ∨ r.statusCode = 403 ∨ r.statusCode = 500) :=
  handler_total_outcomes happyEnv ⟨some "cert-1"⟩ "cert-1" rfl

/-- Is this action an UpdateCertificateStatus call setting ACTIVE? -/
def isActivate : Action → Bool
  | .updateCert _ CertStatus.active => true
  | _ => false

/-- Is this action an UpdateCertificateStatus call (either status)? -/
def isUpdateCertCall : Action → Bool
  | .updateCert _ _ => true
  | _ => false

/-- Is this action an AttachPolicy call? -/
def isAttachPolicyCall : Action → Bool
  | .attachPolicy _ _ => true
  | _ => false

/-- Is this action an AttachThingPrincipal call? -/
def isAttachPrincipalCall : Action → Bool
  | .attachThingPrincipal _ _ => true
  | _ => false

/-- The ordering asserted by the spec: in this trace, the first activation
comes only after both a policy attach and a principal attach. -/
def activationAfterProvisioning (tr : List Action) : Bool :=
  match tr.findIdx? isActivate with
  | none => true
  | some i =>
    match tr.findIdx? isAttachPolicyCall, tr.findIdx? isAttachPrincipalCall with
    | some j, some k => Nat.blt j i && Nat.blt k i
    | _, _ => false

/-- `create_and_attach_policy` never issues an UpdateCertificateStatus call. -/
theorem create_and_attach_policy_no_update (env : Env)
    (pn arn did : String) (a : Action)
    (ha : a ∈ (create_and_attach_policy env pn arn did).1) :
    isUpdateCertCall a = false := by
  unfold create_and_attach_policy at ha
  repeat' split at ha
  all_goals fin_cases ha <;> rfl

/-- `register_thing` never issues an UpdateCertificateStatus call. -/
theorem register_thing_no_update (env : Env)
    (tn arn : String) (a : Action)
    (ha : a ∈ (register_thing env tn arn).1) :
    isUpdateCertCall a = false := by
  unfold register_thing at ha
  repeat' split at ha
  all_goals fin_cases ha <;> rfl

/-- Counterexample to C1: a fully successful authorized run (status 200) in
which the activation call sits at trace index 2 while the policy attach sits
at index 6 and the principal attach at index 9 — activation is issued before
provisioning completes, so the ordering asserted by the claim is violated. -/
theorem activation_not_after_provisioning :
    (lambda_handler happyEnv ⟨some "cert-1"⟩).2 =
      .ok ⟨200, "Device dev-7 successfully registered"⟩ ∧
    (lambda_handler happyEnv ⟨some "cert-1"⟩).1.findIdx? isActivate = some 2 ∧
    (lambda_handler happyEnv ⟨some "cert-1"⟩).1.findIdx? isAttachPolicyCall = some 6 ∧
    (lambda_handler happyEnv ⟨some "cert-1"⟩).1.findIdx? isAttachPrincipalCall = some 9 ∧
    activationAfterProvisioning (lambda_handler happyEnv ⟨some "cert-1"⟩).1 = false := by
  refine ⟨rfl, rfl, rfl, rfl, rfl⟩

/-- C1 as amended: in every run that reaches the authorized path (returns
status 200), the certificate is activated immediately after the successful
whitelist check — the trace starts describe, lookup, activate — and no
further certificate-status call occurs during provisioning. -/
theorem activation_precedes_provisioning (env : Env) (event : Event)
    (cid : String) (tr : List Action) (r : LambdaResult)
    (hid : event.certificateId = some cid)
    (hrun : lambda_handler env event = (tr, .ok r))
    (h200 : r.statusCode = 200) :
    ∃ did rest,
      tr = Action.describeCert cid :: Action.getItem did ::
           Action.updateCert cid CertStatus.active :: rest ∧
      ∀ a ∈ rest, isUpdateCertCall a = false := by
  rcases htry : lambda_handler_try env cid with ⟨tr0, res0⟩
  simp only [lambda_handler, hid, htry] at hrun
  cases res0 with
  | error e =>
    rcases hcase : env.updateCert cid CertStatus.revoked with r' | u <;>
      simp [hcase] at hrun <;>
      (obtain ⟨-, hr⟩ := hrun; subst hr; simp at h200)
  | ok r0 =>
    obtain ⟨htr0, hr0⟩ : tr0 = tr ∧ r0 = r := by
      simpa using hrun
    subst htr0; subst hr0
    rcases hdesc : env.describeCert cid with e | ⟨pem, arn⟩ <;>
      simp only [lambda_handler_try, hdesc] at htry
    · simp at htry
    rcases hext : extract_device_id_from_certificate env pem with e | did <;>
      simp only [hext] at htry
    · simp at htry
    rcases hitem : env.getItem did with e | b <;>
      simp only [hitem] at htry
    · simp at htry
    cases b with
    | false =>
      rcases hrev : env.updateCert cid CertStatus.revoked with e | u <;>
        simp only [hrev] at htry
      · simp at htry
      simp only [Prod.mk.injEq, Except.ok.injEq] at htry
      obtain ⟨-, hr⟩ := htry
      rw [← hr] at h200
      simp at h200
    | true =>
      rcases hact : env.updateCert cid CertStatus.active with e | u <;>
        simp only [hact] at htry
      · simp at htry
      rcases hP : create_and_attach_policy env ("DevicePolicy_" ++ did) arn did
        with ⟨ptr, pres⟩
      rw [hP] at htry
      cases pres with
      | error e => simp at htry
      | ok u2 =>
        rcases hT : register_thing env ("Device_" ++ did) arn with ⟨ttr, tres⟩
        rw [hT] at htry
        cases tres with
        | error e => simp at htry
        | ok u3 =>
          simp only [Prod.mk.injEq] at htry
          obtain ⟨htr, -⟩ := htry
          refine ⟨did, ptr ++ ttr, ?_, ?_⟩
          · rw [← htr]; simp
          · intro a ha
            rcases List.mem_append.mp ha with h | h
            · exact create_and_attach_policy_no_update env
                ("DevicePolicy_" ++ did) arn did a (by rw [hP]; exact h)
            · exact register_thing_no_update env ("Device_" ++ did) arn a
                (by rw [hT]; exact h)

/-- Witness for the amended C1, at the all-succeeding environment. -/
theorem activation_precedes_provisioning_witness :
    ∃ did rest,
      (lambda_handler happyEnv ⟨some "cert-1"⟩).1 =
        Action.describeCert "cert-1" :: Action.getItem did ::
        Action.updateCert "cert-1" CertStatus.active :: rest ∧
      ∀ a ∈ rest, isUpdateCertCall a = false :=
  activation_precedes_provisioning happyEnv ⟨some "cert-1"⟩ "cert-1"
    (lambda_handler happyEnv ⟨some "cert-1"⟩).1
    ⟨200, "Device dev-7 successfully registered"⟩ rfl rfl rfl

/-- A model of the external services' state for one certificate: the
registry contents plus the fixed certificate material and whitelist.  Used to
run the handler against AWS-like create-if-absent / idempotent-attach
semantics. -/
structure World where
  certPem : String
  certArn : String
  subject : List (String × String)
  whitelist : List String
  certStatus : Option CertStatus
  policies : List String
  things : List String
  policyAttachments : List (String × String)
  principalAttachments : List (String × String)
  region : String
  accountId : String
  now : String
deriving DecidableEq, Repr

/-- Read-only oracle derived from a world state: probes answer from the
registry, mutations succeed (their effect on the world is applied by
`applyAction`). -/
def envOfWorld (w : World) : Env :=
  { region := w.region
    now := w.now
    describeCert := fun _ => .ok (w.certPem, w.certArn)
    parseSubject := fun _ => .ok w.subject
    getItem := fun d => .ok (w.whitelist.contains d)
    updateCert := fun _ _ => .ok ()
    stsGetCallerIdentity := .ok w.accountId
    getPolicy := fun n => if w.policies.contains n then .found else .notFound
    createPolicy := fun _ _ => .ok ()
    attachPolicy := fun _ _ => .ok ()
    describeThing := fun n => if w.things.contains n then .found else .notFound
    createThing := fun _ _ => .ok ()
    attachThingPrincipal := fun _ _ => .ok () }

/-- Attach relations are additive and idempotent: inserting an
already-present pair leaves the relation unchanged. -/
def insertIfAbsent (x : String × String) (l : List (String × String)) :
    List (String × String) :=
  if l.contains x then l else x :: l

/-- Effect of one successful call on the world: create adds the named
resource, attach inserts idempotently, update-status overwrites the
certificate status; reads change nothing. -/
def applyAction (w : World) (a : Action) : World :=
  match a with
  | .updateCert _ s => { w with certStatus := some s }
  | .createPolicy n _ => { w with policies := n :: w.policies }
  | .attachPolicy n t =>
      { w with policyAttachments := insertIfAbsent (n, t) w.policyAttachments }
  | .createThing n _ => { w with things := n :: w.things }
  | .attachThingPrincipal n p =>
      { w with principalAttachments := insertIfAbsent (n, p) w.principalAttachments }
  | _ => w

/-- Apply a whole trace of calls to the world, in order. -/
def applyTrace (w : World) (tr : List Action) : World :=
  tr.foldl applyAction w

/-- Run the handler against a world: issue the calls the oracle answers and
fold their effects into the world. -/
def runOnWorld (w : World) (event : Event) :
    World × Except String LambdaResult :=
  match lambda_handler (envOfWorld w) event with
  | (tr, res) => (applyTrace w tr, res)

/-- A world in which the device is whitelisted and no policy, thing or
attachment exists yet. -/
def freshWorld (device_id certificate_pem certificate_arn region account_id now : String) :
    World :=
  { certPem := certificate_pem
    certArn := certificate_arn
    subject := [("serialNumber", device_id)]
    whitelist := [device_id]
    certStatus := none
    policies := []
    things := []
    policyAttachments := []
    principalAttachments := []
    region := region
    accountId := account_id
    now := now }

/-- C6: running the authorized path a second time against the end state of
the first run succeeds (200, no error), creates no duplicate policy or
thing, and leaves the world exactly as a single run left it. -/
theorem second_run_idempotent
    (device_id certificate_pem certificate_arn region account_id now cid : String) :
    (runOnWorld
        (runOnWorld (freshWorld device_id certificate_pem certificate_arn
          region account_id now) ⟨some cid⟩).1 ⟨some cid⟩).2 =
      .ok ⟨200, "Device " ++ device_id ++ " successfully registered"⟩ ∧
    (runOnWorld
        (runOnWorld (freshWorld device_id certificate_pem certificate_arn
          region account_id now) ⟨some cid⟩).1 ⟨some cid⟩).1 =
      (runOnWorld (freshWorld device_id certificate_pem certificate_arn
          region account_id now) ⟨some cid⟩).1 := by
  constructor <;>
    simp [runOnWorld, lambda_handler, lambda_handler_try, envOfWorld,
      freshWorld, extract_device_id_from_certificate, extract_device_id_core,
      dictGet, create_and_attach_policy, register_thing, applyTrace,
      applyAction, insertIfAbsent, thingAttributes, List.contains]

end JITR
